import Mathlib

/-!
Verification of the Tudr analytics add-on (qt/aqt/tudr_analytics.py and
qt/aqt/tudr_features.py): a shallow embedding of the review-event data
model, the daily-report pipeline, the weak-topic aggregation and the
practice-deck sync, together with theorems about the properties the
specification states for them.
-/

/-- A logged review event, as built by `TudrAnalytics.log_card_review`
(`review_data` dictionary): card id, ease button, time taken, ISO
timestamp, deck id, stripped question/answer text, note-type name, and
the derived `isCorrect = ease > 1` flag. -/
structure ReviewEvent where
  cardId : Nat
  ease : Nat
  timeTaken : Nat
  timestamp : String
  deckId : Nat
  question : String
  answer : String
  noteType : String
  isCorrect : Bool
deriving Repr, DecidableEq

/-- The collection's key-value config as far as this add-on touches it:
the `tudrAnalytics` entry (a snapshot of review sessions and the last
report date, written by `_save_analytics_data`) and the `tudrOpenAIKey`
entry read by `generate_daily_report`. -/
structure ConfState where
  tudrAnalytics : Option (List ReviewEvent × Option String)
  tudrOpenAIKey : String
deriving Repr, DecidableEq

/-- The in-memory and collection state visible to `TudrAnalytics`:
`review_sessions` and `last_report_date` attributes, the collection
config, the deck table (`col.decks`, id to name), the filtered-deck
specs stored by the scheduler, and the id counter used when a new
filtered deck is created. -/
structure AnalyticsState where
  reviewSessions : List ReviewEvent
  lastReportDate : Option String
  conf : ConfState
  decks : List (Nat × String)
  filteredSpecs : List (Nat × String × Nat)
  nextDeckId : Nat
deriving Repr, DecidableEq

/-- The external classification environment: whether the `openai`
module imported (`OPENAI_AVAILABLE`), and the chat-completion call as
an oracle from the prompt to either a reply or an exception. -/
structure ClassifyEnv where
  openaiAvailable : Bool
  oracle : String → Except String String

/-- Boolean prefix test on character lists (`needle` begins `hay`). -/
def listHasPre : List Char → List Char → Bool
  | [], _ => true
  | _ :: _, [] => false
  | a :: as, b :: bs => a == b && listHasPre as bs

/-- Boolean substring test on character lists; embeds the Python
`needle in hay` string-containment operator. -/
def listHasSub (needle : List Char) : List Char → Bool
  | [] => needle.isEmpty
  | c :: rest => listHasPre needle (c :: rest) || listHasSub needle rest

/-- Python `needle in hay` on strings. -/
def strContains (hay needle : String) : Bool :=
  listHasSub needle.data hay.data

/-- The prompt string built by `classify_card_topic` (first 200
characters of the card text spliced into the fixed template). -/
def classifyPrompt (cardText : String) : String :=
  "Classify the main topic/subject of this flashcard in 2-3 words.\n        \nCard content: "
    ++ cardText.take 200
    ++ "...\n\nRespond with just the topic name (e.g., \"Math - Algebra\", \"Biology - Cells\", \"History - World War\", \"Language - Spanish Vocab\", etc.)"

/-- `TudrAnalytics.classify_card_topic`: returns "Unknown" when the
openai module is unavailable or the key is empty; otherwise asks the
oracle and strips the reply, returning "Unknown" if the call raises. -/
def classify_card_topic (env : ClassifyEnv) (card_text : String) (api_key : String) : String :=
  if !env.openaiAvailable || api_key == "" then "Unknown"
  else
    match env.oracle (classifyPrompt card_text) with
    | Except.ok s => s.trim
    | Except.error _ => "Unknown"

/-- `TudrAnalytics._get_deck_name`: deck-table lookup, with
"Unknown Deck" when the deck is absent (or the lookup raises). -/
def get_deck_name (st : AnalyticsState) (deck_id : Nat) : String :=
  match st.decks.find? (fun d => d.1 == deck_id) with
  | some d => d.2
  | none => "Unknown Deck"

/-- Accumulated result of the session loop in
`get_yesterday_performance`. -/
structure ScanResult where
  total : Nat
  correct : Nat
  totalTime : Nat
  failed : List ReviewEvent
deriving Repr, DecidableEq

/-- The loop of `get_yesterday_performance`: for each session whose
timestamp date (first 10 characters) equals `yesterday`, count it,
add its time, and either count it correct or append it to the failed
list (first-seen order). -/
def scanYesterday (yesterday : String) : List ReviewEvent → ScanResult
  | [] => ⟨0, 0, 0, []⟩
  | s :: rest =>
    let r := scanYesterday yesterday rest
    if s.timestamp.take 10 == yesterday then
      if s.isCorrect then ⟨r.total + 1, r.correct + 1, r.totalTime + s.timeTaken, r.failed⟩
      else ⟨r.total + 1, r.correct, r.totalTime + s.timeTaken, s :: r.failed⟩
    else r

/-- The dictionary returned by `get_yesterday_performance`. -/
structure Performance where
  totalCards : Nat
  correctCards : Nat
  failedCards : Nat
  accuracy : ℚ
  avgTime : ℚ
  failedCardData : List ReviewEvent
deriving DecidableEq

/-- `TudrAnalytics.get_yesterday_performance`, with yesterday's date
string passed explicitly. -/
def get_yesterday_performance (st : AnalyticsState) (yesterday : String) : Performance :=
  let r := scanYesterday yesterday st.reviewSessions
  { totalCards := r.total
    correctCards := r.correct
    failedCards := r.failed.length
    accuracy := if 0 < r.total then (r.correct : ℚ) / (r.total : ℚ) * 100 else 0
    avgTime := if 0 < r.total then (r.totalTime : ℚ) / (r.total : ℚ) else 0
    failedCardData := r.failed }

/-- The keyword list tested against the deck name in
`get_weak_topics`. -/
def subjectKeywords : List String :=
  ["math", "science", "history", "language", "biology", "chemistry", "physics"]

/-- The keyword list tested against the note-type name in
`get_weak_topics`. -/
def typeKeywords : List String :=
  ["vocab", "grammar", "formula", "concept"]

/-- Python `str.lower()`, applied character by character. -/
def strLower (s : String) : String :=
  String.mk (s.data.map Char.toLower)

/-- The per-card topic resolution inside the `get_weak_topics` loop:
deck name when it contains a subject keyword, else note-type name when
it contains a type keyword, else the AI classification of the joined
question and answer text. -/
def resolveTopic (env : ClassifyEnv) (st : AnalyticsState) (api_key : String)
    (card_data : ReviewEvent) : String :=
  let note_type := card_data.noteType
  let deck_name := get_deck_name st card_data.deckId
  if subjectKeywords.any (fun kw => strContains (strLower deck_name) kw) then deck_name
  else if typeKeywords.any (fun kw => strContains (strLower note_type) kw) then note_type
  else classify_card_topic env (card_data.question ++ " " ++ card_data.answer) api_key

/-- One `topic_counts[topic] += 1` step on the insertion-ordered
association list that embeds the Python `defaultdict(int)`. -/
def bumpTopic (t : String) : List (String × Nat) → List (String × Nat)
  | [] => [(t, 1)]
  | p :: rest => if p.1 = t then (p.1, p.2 + 1) :: rest else p :: bumpTopic t rest

/-- Counting topics in first-encountered order. -/
def topicCountsOf (topics : List String) : List (String × Nat) :=
  topics.foldl (fun acc t => bumpTopic t acc) []

/-- Inserting into a descending-by-count list, keeping earlier-input
entries first among equal counts. -/
def insertDesc (p : String × Nat) : List (String × Nat) → List (String × Nat)
  | [] => [p]
  | q :: qs => if p.2 < q.2 then q :: insertDesc p qs else p :: q :: qs

/-- The Python `sorted(items, key=count, reverse=True)`: a stable sort
descending by count (Python's sort is stable, so ties keep the
dictionary's insertion order). -/
def sortDesc : List (String × Nat) → List (String × Nat)
  | [] => []
  | p :: ps => insertDesc p (sortDesc ps)

/-- `TudrAnalytics.get_weak_topics`: empty input short-circuits to the
empty mapping; otherwise each failed card's topic is resolved and
counted, and the counts are sorted descending. -/
def get_weak_topics (env : ClassifyEnv) (st : AnalyticsState)
    (failed_cards : List ReviewEvent) (api_key : String) : List (String × Nat) :=
  if failed_cards.isEmpty then []
  else
    sortDesc (failed_cards.foldl (fun acc c => bumpTopic (resolveTopic env st api_key c) acc) [])

/-- Round a rational to the nearest integer, ties to even (the rounding
of Python's fixed-point string formatting). -/
def roundHalfEven (q : ℚ) : ℤ :=
  let fl : ℤ := ⌊q⌋
  if q - fl < 1/2 then fl
  else if 1/2 < q - fl then fl + 1
  else if fl % 2 = 0 then fl else fl + 1

/-- The `:.1f` conversion applied to the (non-negative) accuracy. -/
def fmt1 (q : ℚ) : String :=
  let n := roundHalfEven (10 * q)
  toString (n / 10) ++ "." ++ toString (n % 10)

/-- `TudrAnalytics._format_daily_report`: the fixed report template,
with the date label (`datetime.now().strftime` of the long format)
passed explicitly. -/
def format_daily_report (performance : Performance) (weak_topics : List (String × Nat))
    (now_label : String) : String :=
  let total := performance.totalCards
  let correct := performance.correctCards
  let failed := performance.failedCards
  let accuracy := performance.accuracy
  let report :=
    "🌟 **Tudr Daily Report** - " ++ now_label
      ++ "\n        \n📊 **Yesterday\x27s Performance:**\n• Total cards reviewed: "
      ++ toString total ++ "\n• Correct answers: " ++ toString correct
      ++ " (" ++ fmt1 accuracy ++ "%)\n• Cards to review: " ++ toString failed ++ "\n\n"
  let report :=
    if weak_topics.isEmpty then report
    else
      report ++ "🎯 **Areas needing attention:**\n"
        ++ String.join ((weak_topics.take 3).map (fun tc =>
             "• " ++ tc.1 ++ ": " ++ toString tc.2 ++ " mistake"
               ++ (if 1 < tc.2 then "s" else "") ++ "\n"))
        ++ "\n"
  let report :=
    if 90 ≤ accuracy then
      report ++ "🎉 **Excellent work!** You\x27re mastering your material.\n"
    else if 75 ≤ accuracy then
      report ++ "👍 **Good progress!** Keep up the consistent effort.\n"
    else
      report ++ "💪 **Keep going!** Focus on your weak areas for improvement.\n"
  if 0 < failed then
    report ++ "\n🔄 **Tudr Practice Deck:** " ++ toString failed
      ++ " cards have been added to your daily practice deck."
  else report

/-- `TudrAnalytics._save_analytics_data`: snapshot the in-memory
sessions and last report date into the collection config. -/
def save_analytics_data (st : AnalyticsState) : AnalyticsState :=
  { st with conf := { st.conf with tudrAnalytics := some (st.reviewSessions, st.lastReportDate) } }

/-- `TudrAnalytics.log_card_review` with the event dictionary already
built: append the event and save. -/
def log_card_review (st : AnalyticsState) (review : ReviewEvent) : AnalyticsState :=
  save_analytics_data { st with reviewSessions := st.reviewSessions ++ [review] }

/-- `TudrAnalytics.generate_daily_report`, with today's and yesterday's
date strings and the long date label passed explicitly. Returns the new
state and the returned text. -/
def generate_daily_report (env : ClassifyEnv) (st : AnalyticsState)
    (today yesterday now_label : String) : AnalyticsState × String :=
  if st.lastReportDate = some today then
    (st, "Daily report already generated for today.")
  else
    let performance := get_yesterday_performance st yesterday
    if performance.totalCards = 0 then
      (st, "No cards studied yesterday. Keep up your study routine!")
    else
      let api_key := st.conf.tudrOpenAIKey
      let weak_topics := get_weak_topics env st performance.failedCardData api_key
      let report := format_daily_report performance weak_topics now_label
      (save_analytics_data { st with lastReportDate := some today }, report)

/-- A run of `generate_daily_report` that raises after completing the
first `k` statements of the body, in source order: (1) the guard check,
(2) `get_yesterday_performance`, (3) the API-key read,
(4) `get_weak_topics`, (5) `_format_daily_report`; the
`last_report_date` assignment and `_save_analytics_data` form
statement 6, the only statements that write any state. The result is
the state left behind by the interrupted call. -/
def generate_daily_report_upto (env : ClassifyEnv) (st : AnalyticsState)
    (today yesterday now_label : String) (k : Nat) : AnalyticsState :=
  if st.lastReportDate = some today then st
  else if (get_yesterday_performance st yesterday).totalCards = 0 then st
  else if k < 6 then st
  else (generate_daily_report env st today yesterday now_label).1

/-- `TudrAnalytics.should_show_daily_report`. -/
def should_show_daily_report (st : AnalyticsState) (today yesterday : String) : Bool :=
  decide (st.lastReportDate ≠ some today)
    && decide (0 < (get_yesterday_performance st yesterday).totalCards)

/-- The fixed name of the practice deck. -/
def tudrDeckName : String := "Tudr - Daily Practice"

/-- `TudrAnalytics._get_or_create_tudr_deck`: scan the deck table for
the fixed name; otherwise create a new filtered deck with a fresh id
(`col.decks.new_filtered` is host code; modelled from the spec's
derived-view manager contract `create(name) -> id`). -/
def get_or_create_tudr_deck (st : AnalyticsState) : AnalyticsState × Nat :=
  match st.decks.find? (fun d => d.2 == tudrDeckName) with
  | some d => (st, d.1)
  | none =>
    ({ st with
        decks := st.decks ++ [(st.nextDeckId, tudrDeckName)]
        nextDeckId := st.nextDeckId + 1 },
     st.nextDeckId)

/-- Modelled from the spec: `col.sched.rebuild_filtered_deck` is host
code missing from src; the spec's derived-view manager contract
`update(id, spec)` replaces the view's stored spec with the search
string and the limit argument passed at the call site. -/
def rebuild_filtered_deck (st : AnalyticsState) (deck_id : Nat)
    (search : String) (limit_arg : Nat) : AnalyticsState :=
  { st with
      filteredSpecs :=
        (deck_id, search, limit_arg) :: st.filteredSpecs.filter (fun x => x.1 != deck_id) }

/-- The stored spec of a derived view. -/
def lookupFilteredSpec (st : AnalyticsState) (deck_id : Nat) : Option (String × Nat) :=
  (st.filteredSpecs.find? (fun x => x.1 == deck_id)).map (fun x => x.2)

/-- The observable outcome of `_create_practice_deck`: the early
return's tooltip, or the rebuild's tooltip with the failed-card
count. -/
inductive PracticeOutcome where
  | noCards
  | built (count : Nat)
deriving Repr, DecidableEq

/-- `TudrAnalytics._create_practice_deck`: recompute yesterday's
failures; bail out when there are none; otherwise build the
`cid:`-joined search query, get or create the Tudr deck, and rebuild
it with that query and limit argument 0. -/
def create_practice_deck (st : AnalyticsState) (yesterday : String) :
    AnalyticsState × PracticeOutcome :=
  let performance := get_yesterday_performance st yesterday
  let failed_cards := performance.failedCardData
  if failed_cards.isEmpty then (st, PracticeOutcome.noCards)
  else
    let card_ids := failed_cards.map (fun c => toString c.cardId)
    let search_query := "cid:" ++ String.intercalate "," card_ids
    let r := get_or_create_tudr_deck st
    (rebuild_filtered_deck r.1 r.2 search_query 0, PracticeOutcome.built failed_cards.length)

/-- The weak tag constant `_WEAK_TAG` of tudr_features.py. -/
def weakTag : String := "TudrWeak"

/-- A note as the tag operations see it (`anki.notes.Note` is host
code; modelled from the spec's tag-store contract: `has_tag` is
membership, `add_tag` appends, `flush` persists). -/
structure TudrNote where
  tags : List String
deriving Repr, DecidableEq

/-- `tudr_features._tag_note`: add the weak tag and flush only when it
is not already present. The second component counts the flush calls
(writes) the invocation performs. -/
def tag_note (note : TudrNote) : TudrNote × Nat :=
  if note.tags.contains weakTag then (note, 0)
  else ({ tags := note.tags ++ [weakTag] }, 1)

/-- `tudr_features._on_card_answered` restricted to its effect on the
note: tag it when the answer was "Again" (ease 1). -/
def on_card_answered (note : TudrNote) (ease : Nat) : TudrNote × Nat :=
  if ease = 1 then tag_note note else (note, 0)

/-- The operations a session can perform on the analytics state, for
trace-level properties of the daily-report gate. -/
inductive TudrOp where
  | opLog (review : ReviewEvent)
  | opShouldShow
  | opGenerate
deriving Repr, DecidableEq

/-- One operation applied to the state; `should_show_daily_report`
additionally yields its boolean observation. -/
def stepOp (env : ClassifyEnv) (today yesterday now_label : String)
    (st : AnalyticsState) : TudrOp → AnalyticsState × Option Bool
  | TudrOp.opLog review => (log_card_review st review, none)
  | TudrOp.opShouldShow => (st, some (should_show_daily_report st today yesterday))
  | TudrOp.opGenerate => ((generate_daily_report env st today yesterday now_label).1, none)

/-- The list of `should_show_daily_report` observations produced by a
sequence of operations run from a state, the date held fixed. -/
def runOps (env : ClassifyEnv) (today yesterday now_label : String) :
    AnalyticsState → List TudrOp → List Bool
  | _, [] => []
  | st, op :: ops =>
    let r := stepOp env today yesterday now_label st op
    (match r.2 with
     | some b => [b]
     | none => []) ++ runOps env today yesterday now_label r.1 ops

/-- The session-open discipline of `check_and_show_daily_report`: every
`should_show_daily_report` call that returns true is immediately
followed by `generate_daily_report`. -/
def followsProtocol (env : ClassifyEnv) (today yesterday now_label : String) :
    AnalyticsState → List TudrOp → Prop
  | _, [] => True
  | st, TudrOp.opLog review :: ops =>
    followsProtocol env today yesterday now_label (log_card_review st review) ops
  | st, TudrOp.opGenerate :: ops =>
    followsProtocol env today yesterday now_label
      (generate_daily_report env st today yesterday now_label).1 ops
  | st, TudrOp.opShouldShow :: ops =>
    (should_show_daily_report st today yesterday = true →
      ∃ rest, ops = TudrOp.opGenerate :: rest)
    ∧ followsProtocol env today yesterday now_label st ops

/-- The `_format_daily_report` method seen with its receiver: the
method only reads `self`, so the state is returned untouched alongside
the text. -/
def format_daily_report_method (st : AnalyticsState) (performance : Performance)
    (weak_topics : List (String × Nat)) (now_label : String) : AnalyticsState × String :=
  (st, format_daily_report performance weak_topics now_label)

/-- A correct review logged on 2024-01-01. -/
def sampleRight : ReviewEvent :=
  ⟨6, 3, 2, "2024-01-01T09:00:00", 1, "q2", "a2", "Basic", true⟩

/-- An incorrect review logged on 2024-01-01 in deck 1. -/
def sampleWrong : ReviewEvent :=
  ⟨5, 1, 3, "2024-01-01T10:00:00", 1, "q", "a", "Basic", false⟩

/-- An incorrect review whose note type carries a vocabulary keyword
and whose deck id is absent from the deck table. -/
def failedVocab : ReviewEvent :=
  ⟨7, 1, 4, "2024-01-01T11:00:00", 2, "hola", "hello", "Spanish Vocab", false⟩

/-- An incorrect review matching no keyword tier. -/
def plainCard : ReviewEvent :=
  ⟨8, 1, 2, "2024-01-01T12:00:00", 9, "x", "y", "Basic", false⟩

/-- A config with no stored analytics snapshot and no API key. -/
def emptyConf : ConfState := ⟨none, ""⟩

/-- A state with no logged reviews. -/
def emptyState : AnalyticsState := ⟨[], none, emptyConf, [], [], 1⟩

/-- A state holding one correct and one incorrect review from
2024-01-01, a "Math 101" deck, and no report issued yet. -/
def sampleState : AnalyticsState :=
  ⟨[sampleRight, sampleWrong], none, emptyConf, [(1, "Math 101")], [], 2⟩

/-- `sampleState` after the report for 2024-01-02 has been issued. -/
def issuedState : AnalyticsState :=
  { sampleState with lastReportDate := some "2024-01-02" }

/-- An environment where the openai module failed to import and any
call errors out. -/
def sampleEnv : ClassifyEnv := ⟨false, fun _ => Except.error "offline"⟩

theorem scanYesterday_partition (y : String) (l : List ReviewEvent) :
    (scanYesterday y l).correct + (scanYesterday y l).failed.length = (scanYesterday y l).total
      ∧ ∀ e ∈ (scanYesterday y l).failed, e.isCorrect = false := by
  induction l with
  | nil =>
    refine ⟨rfl, ?_⟩
    intro e he
    cases he
  | cons s rest ih =>
    obtain ⟨h1, h2⟩ := ih
    simp only [scanYesterday]
    by_cases ht : (s.timestamp.take 10 == y) = true
    · rw [if_pos ht]
      by_cases hc : s.isCorrect = true
      · rw [if_pos hc]
        exact ⟨by dsimp only; omega, h2⟩
      · rw [if_neg hc]
        refine ⟨by simp only [List.length_cons]; omega, ?_⟩
        intro e he
        rcases List.mem_cons.mp he with rfl | he2
        · exact Bool.eq_false_iff.mpr hc
        · exact h2 e he2
    · rw [if_neg ht]
      exact ⟨h1, h2⟩

/-- C3: for every non-empty event window, the aggregated summary
satisfies correct + (number of failed items) = total, the reported
failed count is the length of the failed list, and the failed list
holds only events with outcome incorrect. -/
theorem correct_plus_failed_eq_total (st : AnalyticsState) (yesterday : String)
    (h : 0 < (get_yesterday_performance st yesterday).totalCards) :
    (get_yesterday_performance st yesterday).correctCards
        + (get_yesterday_performance st yesterday).failedCardData.length
      = (get_yesterday_performance st yesterday).totalCards
    ∧ (get_yesterday_performance st yesterday).failedCards
        = (get_yesterday_performance st yesterday).failedCardData.length
    ∧ ∀ e ∈ (get_yesterday_performance st yesterday).failedCardData, e.isCorrect = false := by
  obtain ⟨h1, h2⟩ := scanYesterday_partition yesterday st.reviewSessions
  exact ⟨h1, rfl, h2⟩

theorem correct_plus_failed_eq_total_witness :
    0 < (get_yesterday_performance sampleState "2024-01-01").totalCards
    ∧ (get_yesterday_performance sampleState "2024-01-01").correctCards
        + (get_yesterday_performance sampleState "2024-01-01").failedCardData.length
      = (get_yesterday_performance sampleState "2024-01-01").totalCards :=
  ⟨by decide, (correct_plus_failed_eq_total sampleState "2024-01-01" (by decide)).1⟩

/-- C4: accuracy equals 100 * correct / total when total > 0, equals 0
when total = 0, and lies in [0, 100] whenever total > 0. -/
theorem accuracy_formula_and_range (st : AnalyticsState) (yesterday : String) :
    (0 < (get_yesterday_performance st yesterday).totalCards →
      (get_yesterday_performance st yesterday).accuracy
        = 100 * ((get_yesterday_performance st yesterday).correctCards : ℚ)
            / ((get_yesterday_performance st yesterday).totalCards : ℚ))
    ∧ ((get_yesterday_performance st yesterday).totalCards = 0 →
      (get_yesterday_performance st yesterday).accuracy = 0)
    ∧ (0 < (get_yesterday_performance st yesterday).totalCards →
      0 ≤ (get_yesterday_performance st yesterday).accuracy
        ∧ (get_yesterday_performance st yesterday).accuracy ≤ 100) := by
  obtain ⟨hpart, -⟩ := scanYesterday_partition yesterday st.reviewSessions
  have hacc : (get_yesterday_performance st yesterday).accuracy
      = if 0 < (scanYesterday yesterday st.reviewSessions).total
        then ((scanYesterday yesterday st.reviewSessions).correct : ℚ)
              / ((scanYesterday yesterday st.reviewSessions).total : ℚ) * 100
        else 0 := rfl
  have htot : (get_yesterday_performance st yesterday).totalCards
      = (scanYesterday yesterday st.reviewSessions).total := rfl
  have hcor : (get_yesterday_performance st yesterday).correctCards
      = (scanYesterday yesterday st.reviewSessions).correct := rfl
  refine ⟨?_, ?_, ?_⟩
  · intro h
    rw [hacc, htot, hcor, if_pos (htot ▸ h)]
    rw [div_mul_eq_mul_div, mul_comm]
  · intro h
    rw [hacc, if_neg (by omega)]
  · intro h
    have h' : 0 < (scanYesterday yesterday st.reviewSessions).total := htot ▸ h
    have hle : (scanYesterday yesterday st.reviewSessions).correct
        ≤ (scanYesterday yesterday st.reviewSessions).total := by omega
    have htQ : (0 : ℚ) < ((scanYesterday yesterday st.reviewSessions).total : ℚ) := by
      exact_mod_cast h'
    rw [hacc, if_pos h']
    constructor
    · positivity
    · have hdiv : ((scanYesterday yesterday st.reviewSessions).correct : ℚ)
          / ((scanYesterday yesterday st.reviewSessions).total : ℚ) ≤ 1 := by
        rw [div_le_one htQ]
        exact_mod_cast hle
      calc ((scanYesterday yesterday st.reviewSessions).correct : ℚ)
            / ((scanYesterday yesterday st.reviewSessions).total : ℚ) * 100
          ≤ 1 * 100 := by nlinarith
        _ = 100 := by norm_num

theorem accuracy_formula_and_range_witness :
    (0 < (get_yesterday_performance sampleState "2024-01-01").totalCards
      ∧ (get_yesterday_performance sampleState "2024-01-01").accuracy
          = 100 * ((get_yesterday_performance sampleState "2024-01-01").correctCards : ℚ)
              / ((get_yesterday_performance sampleState "2024-01-01").totalCards : ℚ))
    ∧ ((get_yesterday_performance emptyState "2024-01-01").totalCards = 0
      ∧ (get_yesterday_performance emptyState "2024-01-01").accuracy = 0) :=
  ⟨⟨by decide, (accuracy_formula_and_range sampleState "2024-01-01").1 (by decide)⟩,
   ⟨by decide, (accuracy_formula_and_range emptyState "2024-01-01").2.1 (by decide)⟩⟩

/-- C8: weak-marker application is idempotent: a second `_tag_note` on
the note returned by the first leaves the tag state unchanged and
performs no flush. -/
theorem tag_note_idempotent (note : TudrNote) :
    tag_note (tag_note note).1 = ((tag_note note).1, 0) := by
  by_cases h : note.tags.contains weakTag = true
  · have h1 : (tag_note note).1 = note := by rw [tag_note, if_pos h]
    rw [h1, tag_note, if_pos h]
  · have h1 : (tag_note note).1 = ⟨note.tags ++ [weakTag]⟩ := by rw [tag_note, if_neg h]
    have h2 : (TudrNote.mk (note.tags ++ [weakTag])).tags.contains weakTag = true := by
      simp [List.contains_eq_any_beq]
    rw [h1, tag_note, if_pos h2]

/-- C9: the report renderer is a pure function of the summary, the
topic mapping and the date label: the receiver state is returned
unchanged and the text does not depend on it. -/
theorem format_daily_report_pure (st st2 : AnalyticsState) (performance : Performance)
    (weak_topics : List (String × Nat)) (now_label : String) :
    (format_daily_report_method st performance weak_topics now_label).1 = st
    ∧ (format_daily_report_method st performance weak_topics now_label).2
        = (format_daily_report_method st2 performance weak_topics now_label).2 :=
  ⟨rfl, rfl⟩

/-- C1: the last-report date is written only after complete report
generation: it is unchanged when yesterday's window is empty and when
the run stops anywhere before the final write statement (in
particular anywhere before the report text exists), and it equals
today's date after a completed run with a non-empty window. -/
theorem report_state_written_only_on_completion (env : ClassifyEnv) (st : AnalyticsState)
    (today yesterday now_label : String) :
    ((get_yesterday_performance st yesterday).totalCards = 0 →
      ((generate_daily_report env st today yesterday now_label).1).lastReportDate
        = st.lastReportDate)
    ∧ (∀ k, k < 6 →
      (generate_daily_report_upto env st today yesterday now_label k).lastReportDate
        = st.lastReportDate)
    ∧ generate_daily_report_upto env st today yesterday now_label 6
        = (generate_daily_report env st today yesterday now_label).1
    ∧ (0 < (get_yesterday_performance st yesterday).totalCards →
      ((generate_daily_report env st today yesterday now_label).1).lastReportDate
        = some today) := by
  by_cases hg : st.lastReportDate = some today
  · refine ⟨?_, ?_, ?_, ?_⟩
    · intro _
      simp only [generate_daily_report, if_pos hg]
    · intro k _
      simp only [generate_daily_report_upto, if_pos hg]
    · simp only [generate_daily_report_upto, generate_daily_report, if_pos hg]
    · intro _
      simp only [generate_daily_report, if_pos hg]
      exact hg
  · by_cases ht : (get_yesterday_performance st yesterday).totalCards = 0
    · refine ⟨?_, ?_, ?_, ?_⟩
      · intro _
        simp only [generate_daily_report, if_neg hg, if_pos ht]
      · intro k _
        simp only [generate_daily_report_upto, if_neg hg, if_pos ht]
      · simp only [generate_daily_report_upto, generate_daily_report, if_neg hg, if_pos ht]
      · intro h0
        omega
    · refine ⟨?_, ?_, ?_, ?_⟩
      · intro h0
        exact absurd h0 ht
      · intro k hk
        simp only [generate_daily_report_upto, if_neg hg, if_neg ht, if_pos hk]
      · simp only [generate_daily_report_upto, if_neg hg, if_neg ht,
          if_neg (by omega : ¬ (6 : Nat) < 6)]
      · intro _
        simp only [generate_daily_report, if_neg hg, if_neg ht]
        rfl

theorem report_state_written_only_on_completion_witness :
    ((get_yesterday_performance emptyState "2024-01-01").totalCards = 0
      ∧ ((generate_daily_report sampleEnv emptyState "2024-01-02" "2024-01-01"
            "January 02, 2024").1).lastReportDate = emptyState.lastReportDate)
    ∧ (3 < 6
      ∧ (generate_daily_report_upto sampleEnv sampleState "2024-01-02" "2024-01-01"
            "January 02, 2024" 3).lastReportDate = sampleState.lastReportDate)
    ∧ (0 < (get_yesterday_performance sampleState "2024-01-01").totalCards
      ∧ ((generate_daily_report sampleEnv sampleState "2024-01-02" "2024-01-01"
            "January 02, 2024").1).lastReportDate = some "2024-01-02") :=
  ⟨⟨by decide,
    (report_state_written_only_on_completion sampleEnv emptyState "2024-01-02" "2024-01-01"
      "January 02, 2024").1 (by decide)⟩,
   ⟨by decide,
    (report_state_written_only_on_completion sampleEnv sampleState "2024-01-02" "2024-01-01"
      "January 02, 2024").2.1 3 (by decide)⟩,
   ⟨by decide,
    (report_state_written_only_on_completion sampleEnv sampleState "2024-01-02" "2024-01-01"
      "January 02, 2024").2.2.2 (by decide)⟩⟩

/-- C10: querying the gate is read-only: `should_show_daily_report`
returns the state unchanged next to its boolean, and no operation
other than `generate_daily_report` changes the last-report date. -/
theorem should_show_daily_report_readonly (env : ClassifyEnv)
    (today yesterday now_label : String) (st : AnalyticsState) (op : TudrOp)
    (hop : op ≠ TudrOp.opGenerate) :
    stepOp env today yesterday now_label st TudrOp.opShouldShow
      = (st, some (should_show_daily_report st today yesterday))
    ∧ ((stepOp env today yesterday now_label st op).1).lastReportDate = st.lastReportDate := by
  refine ⟨rfl, ?_⟩
  cases op with
  | opLog review => rfl
  | opShouldShow => rfl
  | opGenerate => exact absurd rfl hop

theorem should_show_daily_report_readonly_witness :
    stepOp sampleEnv "2024-01-02" "2024-01-01" "January 02, 2024" sampleState
        TudrOp.opShouldShow
      = (sampleState, some (should_show_daily_report sampleState "2024-01-02" "2024-01-01"))
    ∧ ((stepOp sampleEnv "2024-01-02" "2024-01-01" "January 02, 2024" sampleState
          TudrOp.opShouldShow).1).lastReportDate = sampleState.lastReportDate :=
  should_show_daily_report_readonly sampleEnv "2024-01-02" "2024-01-01" "January 02, 2024"
    sampleState TudrOp.opShouldShow (by decide)

theorem log_preserves_lastReportDate (st : AnalyticsState) (review : ReviewEvent) :
    (log_card_review st review).lastReportDate = st.lastReportDate := rfl

theorem generate_noop_when_issued (env : ClassifyEnv) (st : AnalyticsState)
    (today yesterday now_label : String) (h : st.lastReportDate = some today) :
    (generate_daily_report env st today yesterday now_label).1 = st := by
  simp only [generate_daily_report, if_pos h]

theorem should_show_false_when_issued (st : AnalyticsState) (today yesterday : String)
    (h : st.lastReportDate = some today) :
    should_show_daily_report st today yesterday = false := by
  simp [should_show_daily_report, h]

theorem generate_marks_done (env : ClassifyEnv) (st : AnalyticsState)
    (today yesterday now_label : String)
    (hg : st.lastReportDate ≠ some today)
    (ht : 0 < (get_yesterday_performance st yesterday).totalCards) :
    ((generate_daily_report env st today yesterday now_label).1).lastReportDate = some today := by
  simp only [generate_daily_report, if_neg hg, if_neg (by omega :
    ¬ (get_yesterday_performance st yesterday).totalCards = 0)]
  rfl

theorem runOps_all_false_when_issued (env : ClassifyEnv) (today yesterday now_label : String) :
    ∀ (ops : List TudrOp) (st : AnalyticsState), st.lastReportDate = some today →
      (runOps env today yesterday now_label st ops).count true = 0 := by
  intro ops
  induction ops with
  | nil => intro st _; rfl
  | cons op rest ih =>
    intro st h
    cases op with
    | opLog review =>
      simp only [runOps, stepOp, List.nil_append]
      exact ih _ ((log_preserves_lastReportDate st review).trans h)
    | opShouldShow =>
      simp only [runOps, stepOp]
      rw [should_show_false_when_issued st today yesterday h]
      simp only [List.singleton_append, List.count_cons]
      rw [ih st h]
      rfl
    | opGenerate =>
      simp only [runOps, stepOp, List.nil_append]
      rw [generate_noop_when_issued env st today yesterday now_label h]
      exact ih st h

/-- C2 amended: the gate query alone is read-only, so it is the
session-open discipline (every true answer immediately followed by
`generate_daily_report`, as `check_and_show_daily_report` does) that
makes it answer true at most once per date; and once the last-report
date holds today, every later query that day answers false. -/
theorem daily_report_gate (env : ClassifyEnv) (today yesterday now_label : String) :
    (∀ (ops : List TudrOp) (st : AnalyticsState),
        followsProtocol env today yesterday now_label st ops →
        (runOps env today yesterday now_label st ops).count true ≤ 1)
    ∧ (∀ (ops : List TudrOp) (st : AnalyticsState), st.lastReportDate = some today →
        (runOps env today yesterday now_label st ops).count true = 0) := by
  refine ⟨?_, runOps_all_false_when_issued env today yesterday now_label⟩
  intro ops
  induction ops with
  | nil =>
    intro st _
    exact Nat.zero_le 1
  | cons op rest ih =>
    intro st hp
    cases op with
    | opLog review =>
      simp only [runOps, stepOp, List.nil_append]
      exact ih _ hp
    | opGenerate =>
      simp only [runOps, stepOp, List.nil_append]
      exact ih _ hp
    | opShouldShow =>
      obtain ⟨himp, hproto⟩ := hp
      by_cases hb : should_show_daily_report st today yesterday = true
      · obtain ⟨tail, htail⟩ := himp hb
        subst htail
        have hb2 := hb
        simp only [should_show_daily_report, Bool.and_eq_true, decide_eq_true_eq] at hb2
        obtain ⟨hg, ht⟩ := hb2
        have h0 : (runOps env today yesterday now_label
            (generate_daily_report env st today yesterday now_label).1 tail).count true = 0 :=
          runOps_all_false_when_issued env today yesterday now_label tail _
            (generate_marks_done env st today yesterday now_label hg ht)
        simp only [runOps, stepOp, List.singleton_append, List.nil_append, hb]
        simp [List.count_cons, h0]
      · have hbf : should_show_daily_report st today yesterday = false :=
          Bool.eq_false_iff.mpr hb
        have hle := ih st hproto
        simp only [runOps, stepOp, List.singleton_append, hbf]
        simp only [List.count_cons]
        simp
        omega

theorem daily_report_gate_witness :
    (runOps sampleEnv "2024-01-02" "2024-01-01" "January 02, 2024" sampleState
        [TudrOp.opShouldShow, TudrOp.opGenerate, TudrOp.opShouldShow]).count true ≤ 1
    ∧ (runOps sampleEnv "2024-01-02" "2024-01-01" "January 02, 2024" issuedState
        [TudrOp.opShouldShow]).count true = 0 :=
  ⟨(daily_report_gate sampleEnv "2024-01-02" "2024-01-01" "January 02, 2024").1
      [TudrOp.opShouldShow, TudrOp.opGenerate, TudrOp.opShouldShow] sampleState
      ⟨fun _ => ⟨[TudrOp.opShouldShow], rfl⟩,
       fun h => absurd h (by decide),
       trivial⟩,
   (daily_report_gate sampleEnv "2024-01-02" "2024-01-01" "January 02, 2024").2
      [TudrOp.opShouldShow] issuedState rfl⟩

/-- C2 counterexample: from a state with no report issued and a
non-empty yesterday window, two consecutive invocations of
`should_show_daily_report` with the date unchanged both return true,
so the query by itself does not return true at most once per date. -/
theorem should_run_true_twice :
    ¬ ((runOps sampleEnv "2024-01-02" "2024-01-01" "January 02, 2024" sampleState
        [TudrOp.opShouldShow, TudrOp.opShouldShow]).count true ≤ 1) := by
  decide

theorem mem_insertDesc (p a : String × Nat) (l : List (String × Nat)) :
    a ∈ insertDesc p l ↔ a = p ∨ a ∈ l := by
  induction l with
  | nil => simp [insertDesc]
  | cons q qs ih =>
    simp only [insertDesc]
    by_cases h : p.2 < q.2
    · rw [if_pos h]
      simp only [List.mem_cons, ih]
      tauto
    · rw [if_neg h]
      simp only [List.mem_cons]

theorem pairwise_insertDesc (p : String × Nat) (l : List (String × Nat))
    (h : l.Pairwise (fun a b => b.2 ≤ a.2)) :
    (insertDesc p l).Pairwise (fun a b => b.2 ≤ a.2) := by
  induction l with
  | nil => simp [insertDesc]
  | cons q qs ih =>
    rcases List.pairwise_cons.mp h with ⟨hq, hqs⟩
    simp only [insertDesc]
    by_cases hlt : p.2 < q.2
    · rw [if_pos hlt]
      refine List.pairwise_cons.mpr ⟨?_, ih hqs⟩
      intro a ha
      rcases (mem_insertDesc p a qs).mp ha with rfl | ha2
      · omega
      · exact hq a ha2
    · rw [if_neg hlt]
      refine List.pairwise_cons.mpr ⟨?_, List.pairwise_cons.mpr ⟨hq, hqs⟩⟩
      intro a ha
      rcases List.mem_cons.mp ha with rfl | ha2
      · omega
      · have := hq a ha2
        omega

theorem sortDesc_pairwise (l : List (String × Nat)) :
    (sortDesc l).Pairwise (fun a b => b.2 ≤ a.2) := by
  induction l with
  | nil => simp [sortDesc]
  | cons p ps ih => exact pairwise_insertDesc p _ ih

theorem filter_insertDesc (p : String × Nat) (l : List (String × Nat)) (c : Nat) :
    (insertDesc p l).filter (fun q => q.2 == c)
      = if p.2 = c then p :: l.filter (fun q => q.2 == c)
        else l.filter (fun q => q.2 == c) := by
  induction l with
  | nil =>
    by_cases h : p.2 = c
    · rw [if_pos h]
      simp [insertDesc, List.filter_cons, h]
    · rw [if_neg h]
      simp [insertDesc, List.filter_cons, h]
  | cons q qs ih =>
    simp only [insertDesc]
    by_cases hlt : p.2 < q.2
    · rw [if_pos hlt]
      by_cases hc : p.2 = c
      · have hqc : (q.2 == c) = false := by
          simp only [beq_eq_false_iff_ne, ne_eq]
          omega
        rw [if_pos hc] at ih ⊢
        rw [List.filter_cons, if_neg (by simp [hqc]), ih,
          List.filter_cons, if_neg (by simp [hqc])]
      · rw [if_neg hc] at ih ⊢
        rw [List.filter_cons, ih, List.filter_cons]
    · rw [if_neg hlt]
      by_cases hc : p.2 = c
      · rw [if_pos hc]
        rw [List.filter_cons, if_pos (by simp [hc])]
      · rw [if_neg hc]
        rw [List.filter_cons, if_neg (by simp [hc])]

theorem filter_sortDesc (l : List (String × Nat)) (c : Nat) :
    (sortDesc l).filter (fun q => q.2 == c) = l.filter (fun q => q.2 == c) := by
  induction l with
  | nil => rfl
  | cons p ps ih =>
    simp only [sortDesc]
    rw [filter_insertDesc]
    by_cases hc : p.2 = c
    · rw [if_pos hc, ih, List.filter_cons, if_pos (by simp [hc])]
    · rw [if_neg hc, ih, List.filter_cons, if_neg (by simp [hc])]

/-- C5: for every list of failed items, the topic mapping
`get_weak_topics` returns is ordered by count descending; and any two
entries with equal counts keep the first-encountered order of the
underlying counting pass over the failed list (stability witnessed
through sublists). -/
theorem get_weak_topics_sorted_stable (env : ClassifyEnv) (st : AnalyticsState)
    (api_key : String) (failed_cards : List ReviewEvent) :
    (get_weak_topics env st failed_cards api_key).Pairwise (fun x y => y.2 ≤ x.2)
    ∧ ∀ a b : String × Nat, a.2 = b.2 →
      [a, b].Sublist (topicCountsOf (failed_cards.map (resolveTopic env st api_key))) →
      [a, b].Sublist (get_weak_topics env st failed_cards api_key) := by
  have hfold : failed_cards.foldl (fun acc c => bumpTopic (resolveTopic env st api_key c) acc) []
      = topicCountsOf (failed_cards.map (resolveTopic env st api_key)) := by
    rw [topicCountsOf, List.foldl_map]
  by_cases he : failed_cards.isEmpty = true
  · have hw : get_weak_topics env st failed_cards api_key = [] := by
      rw [get_weak_topics, if_pos he]
    have hnil : failed_cards = [] := by
      simpa using he
    rw [hw]
    refine ⟨List.Pairwise.nil, ?_⟩
    intro a b _ hsub
    rw [hnil] at hsub
    simp [topicCountsOf] at hsub
  · have hw : get_weak_topics env st failed_cards api_key
        = sortDesc (topicCountsOf (failed_cards.map (resolveTopic env st api_key))) := by
      rw [get_weak_topics, if_neg (by simp [he]), hfold]
    rw [hw]
    refine ⟨sortDesc_pairwise _, ?_⟩
    intro a b hab hsub
    have hfab : [a, b].filter (fun q => q.2 == a.2) = [a, b] := by
      simp [List.filter_cons, hab.symm]
    have h1 : [a, b].Sublist
        ((topicCountsOf (failed_cards.map (resolveTopic env st api_key))).filter
          (fun q => q.2 == a.2)) := by
      have := List.Sublist.filter (fun q => q.2 == a.2) hsub
      rwa [hfab] at this
    have h2 : [a, b].Sublist
        ((sortDesc (topicCountsOf (failed_cards.map (resolveTopic env st api_key)))).filter
          (fun q => q.2 == a.2)) := by
      rwa [filter_sortDesc]
    exact h2.trans (List.filter_sublist _)

theorem get_weak_topics_sorted_stable_witness :
    (get_weak_topics sampleEnv sampleState [sampleWrong, failedVocab] "").Pairwise
        (fun x y => y.2 ≤ x.2)
    ∧ ((("Math 101", 1) : String × Nat).2 = (("Spanish Vocab", 1) : String × Nat).2
      ∧ [(("Math 101", 1) : String × Nat), ("Spanish Vocab", 1)].Sublist
          (topicCountsOf ([sampleWrong, failedVocab].map (resolveTopic sampleEnv sampleState "")))
      ∧ [(("Math 101", 1) : String × Nat), ("Spanish Vocab", 1)].Sublist
          (get_weak_topics sampleEnv sampleState [sampleWrong, failedVocab] "")) :=
  ⟨(get_weak_topics_sorted_stable sampleEnv sampleState "" [sampleWrong, failedVocab]).1,
   rfl, by decide,
   (get_weak_topics_sorted_stable sampleEnv sampleState "" [sampleWrong, failedVocab]).2
     ("Math 101", 1) ("Spanish Vocab", 1) rfl (by decide)⟩

theorem listHasPre_iff (n h : List Char) : listHasPre n h = true ↔ n <+: h := by
  induction n generalizing h with
  | nil => simp [listHasPre, List.nil_prefix]
  | cons a as ih =>
    cases h with
    | nil => simp [listHasPre]
    | cons b bs => simp [listHasPre, List.cons_prefix_cons, ih]

theorem listHasSub_iff (n h : List Char) : listHasSub n h = true ↔ n <:+: h := by
  induction h with
  | nil =>
    cases n with
    | nil => simp [listHasSub]
    | cons c cs => simp [listHasSub]
  | cons c rest ih => simp [listHasSub, listHasPre_iff, ih, List.infix_cons_iff]

theorem strContains_iff (hay needle : String) :
    strContains hay needle = true ↔ needle.data <:+: hay.data :=
  listHasSub_iff needle.data hay.data

theorem any_contains_iff (kws : List String) (s : String) :
    kws.any (fun kw => strContains s kw) = true ↔ ∃ kw ∈ kws, kw.data <:+: s.data := by
  simp [List.any_eq_true, strContains_iff]

/-- C6: topic labels are resolved by the three-tier policy in order
with first match winning: the deck name on a subject-keyword substring
match (case-insensitive), else the note-type name on a type-keyword
match, else the classifier, which yields "Unknown" whenever the openai
module is unavailable, the key is empty, or the call raises. -/
theorem resolve_topic_three_tier (env : ClassifyEnv) (st : AnalyticsState)
    (api_key : String) (card_data : ReviewEvent) :
    ((∃ kw ∈ subjectKeywords,
        kw.data <:+: (strLower (get_deck_name st card_data.deckId)).data) →
      resolveTopic env st api_key card_data = get_deck_name st card_data.deckId)
    ∧ (¬ (∃ kw ∈ subjectKeywords,
        kw.data <:+: (strLower (get_deck_name st card_data.deckId)).data) →
      (∃ kw ∈ typeKeywords, kw.data <:+: (strLower card_data.noteType).data) →
      resolveTopic env st api_key card_data = card_data.noteType)
    ∧ (¬ (∃ kw ∈ subjectKeywords,
        kw.data <:+: (strLower (get_deck_name st card_data.deckId)).data) →
      ¬ (∃ kw ∈ typeKeywords, kw.data <:+: (strLower card_data.noteType).data) →
      resolveTopic env st api_key card_data
        = classify_card_topic env (card_data.question ++ " " ++ card_data.answer) api_key)
    ∧ ((env.openaiAvailable = false ∨ api_key = ""
        ∨ ∃ e, env.oracle (classifyPrompt (card_data.question ++ " " ++ card_data.answer))
            = Except.error e) →
      classify_card_topic env (card_data.question ++ " " ++ card_data.answer) api_key
        = "Unknown") := by
  refine ⟨?_, ?_, ?_, ?_⟩
  · intro hex
    have hb := (any_contains_iff subjectKeywords
      (strLower (get_deck_name st card_data.deckId))).mpr hex
    simp [resolveTopic, hb]
  · intro hn1 hex2
    have h1f : subjectKeywords.any
        (fun kw => strContains (strLower (get_deck_name st card_data.deckId)) kw) = false := by
      rw [Bool.eq_false_iff]
      intro hb
      exact hn1 ((any_contains_iff _ _).mp hb)
    have hb2 := (any_contains_iff typeKeywords (strLower card_data.noteType)).mpr hex2
    simp [resolveTopic, h1f, hb2]
  · intro hn1 hn2
    have h1f : subjectKeywords.any
        (fun kw => strContains (strLower (get_deck_name st card_data.deckId)) kw) = false := by
      rw [Bool.eq_false_iff]
      intro hb
      exact hn1 ((any_contains_iff _ _).mp hb)
    have h2f : typeKeywords.any
        (fun kw => strContains (strLower card_data.noteType) kw) = false := by
      rw [Bool.eq_false_iff]
      intro hb
      exact hn2 ((any_contains_iff _ _).mp hb)
    simp [resolveTopic, h1f, h2f]
  · intro hfail
    rcases hfail with ha | hk | ⟨e, he⟩
    · simp [classify_card_topic, ha]
    · simp [classify_card_topic, hk]
    · by_cases hcond : (!env.openaiAvailable || api_key == "") = true
      · simp [classify_card_topic, hcond]
      · simp [classify_card_topic, hcond, he]

theorem resolve_topic_three_tier_witness :
    (∃ kw ∈ subjectKeywords,
        kw.data <:+: (strLower (get_deck_name sampleState sampleWrong.deckId)).data)
    ∧ resolveTopic sampleEnv sampleState "" sampleWrong
        = get_deck_name sampleState sampleWrong.deckId
    ∧ resolveTopic sampleEnv sampleState "" plainCard = "Unknown" :=
  have hex : ∃ kw ∈ subjectKeywords,
      kw.data <:+: (strLower (get_deck_name sampleState sampleWrong.deckId)).data :=
    (any_contains_iff subjectKeywords
      (strLower (get_deck_name sampleState sampleWrong.deckId))).mp (by decide)
  have hn1 : ¬ ∃ kw ∈ subjectKeywords,
      kw.data <:+: (strLower (get_deck_name sampleState plainCard.deckId)).data :=
    fun hx => absurd ((any_contains_iff _ _).mpr hx) (by decide)
  have hn2 : ¬ ∃ kw ∈ typeKeywords, kw.data <:+: (strLower plainCard.noteType).data :=
    fun hx => absurd ((any_contains_iff _ _).mpr hx) (by decide)
  ⟨hex,
   (resolve_topic_three_tier sampleEnv sampleState "" sampleWrong).1 hex,
   ((resolve_topic_three_tier sampleEnv sampleState "" plainCard).2.2.1 hn1 hn2).trans
     ((resolve_topic_three_tier sampleEnv sampleState "" plainCard).2.2.2 (Or.inl rfl))⟩

theorem lookup_rebuild (st : AnalyticsState) (deck_id : Nat) (search : String)
    (limit_arg : Nat) :
    lookupFilteredSpec (rebuild_filtered_deck st deck_id search limit_arg) deck_id
      = some (search, limit_arg) := by
  simp [lookupFilteredSpec, rebuild_filtered_deck, List.find?_cons]

/-- C7 counterexample: from a state whose only failed card has id 5,
the practice-deck sync stores the id-based query "cid:5" with limit
argument 0 for the Tudr deck — not a single weak-marker (tag) term
bounded to the default limit 100. -/
theorem practice_deck_not_weak_marker_query :
    lookupFilteredSpec (create_practice_deck sampleState "2024-01-01").1
        (get_or_create_tudr_deck sampleState).2
      = some ("cid:5", 0)
    ∧ (("cid:5", (0 : Nat)) : String × Nat) ≠ ("tag:" ++ weakTag, (100 : Nat)) := by
  constructor
  · decide
  · decide

/-- C7 amended: every run of the practice-deck sync with a non-empty
failed list replaces the Tudr deck's stored spec with exactly one
term selecting yesterday's failed cards by id ("cid:" followed by the
comma-joined ids), passing 0 as the limit argument; when the failed
list is empty no view update is made. -/
theorem create_practice_deck_spec (st : AnalyticsState) (yesterday : String) :
    ((get_yesterday_performance st yesterday).failedCardData = [] →
      create_practice_deck st yesterday = (st, PracticeOutcome.noCards))
    ∧ ((get_yesterday_performance st yesterday).failedCardData ≠ [] →
      create_practice_deck st yesterday
        = (rebuild_filtered_deck (get_or_create_tudr_deck st).1 (get_or_create_tudr_deck st).2
            ("cid:" ++ String.intercalate ","
              ((get_yesterday_performance st yesterday).failedCardData.map
                (fun c => toString c.cardId)))
            0,
          PracticeOutcome.built (get_yesterday_performance st yesterday).failedCardData.length)
      ∧ lookupFilteredSpec (create_practice_deck st yesterday).1
            (get_or_create_tudr_deck st).2
        = some ("cid:" ++ String.intercalate ","
            ((get_yesterday_performance st yesterday).failedCardData.map
              (fun c => toString c.cardId)), 0)) := by
  constructor
  · intro h
    simp [create_practice_deck, h]
  · intro h
    have he : (get_yesterday_performance st yesterday).failedCardData.isEmpty = false := by
      simpa using h
    have heq : create_practice_deck st yesterday
        = (rebuild_filtered_deck (get_or_create_tudr_deck st).1 (get_or_create_tudr_deck st).2
            ("cid:" ++ String.intercalate ","
              ((get_yesterday_performance st yesterday).failedCardData.map
                (fun c => toString c.cardId)))
            0,
          PracticeOutcome.built (get_yesterday_performance st yesterday).failedCardData.length) := by
      simp [create_practice_deck, he]
    refine ⟨heq, ?_⟩
    rw [heq]
    exact lookup_rebuild _ _ _ _

theorem create_practice_deck_spec_witness :
    ((get_yesterday_performance emptyState "2024-01-01").failedCardData = []
      ∧ create_practice_deck emptyState "2024-01-01" = (emptyState, PracticeOutcome.noCards))
    ∧ ((get_yesterday_performance sampleState "2024-01-01").failedCardData ≠ []
      ∧ lookupFilteredSpec (create_practice_deck sampleState "2024-01-01").1
            (get_or_create_tudr_deck sampleState).2
          = some ("cid:" ++ String.intercalate ","
              ((get_yesterday_performance sampleState "2024-01-01").failedCardData.map
                (fun c => toString c.cardId)), 0)) :=
  ⟨⟨by decide, (create_practice_deck_spec emptyState "2024-01-01").1 (by decide)⟩,
   ⟨by decide, ((create_practice_deck_spec sampleState "2024-01-01").2 (by decide)).2⟩⟩
